import Mathlib

/-!
Verification of the offer/request comparator in `src/app.py`.

The program is a single Python file with three pieces of real logic:

* the request normalizer — `main`, line 211: group the raw request rows by
  `ArticleNumber` and sum `Quantity`;
* the offer normalizer — `process_csv`, lines 66-102: read an uploaded CSV,
  validate that the columns `ArticleNumber` and `Quantity` are present, coerce
  `Quantity` to numeric dropping unparseable rows, then group and sum;
* the comparator — `compare_data`, lines 104-162: outer-merge the two tables
  on `ArticleNumber`, fill missing quantities with 0, and classify every row.

This file embeds those functions as pure Lean functions over association
lists `List (String × Int)` (a pandas two-column DataFrame with columns
`ArticleNumber`, `Quantity`), and proves or refutes the specified properties.

Two modelling notes, both forced by the source:

* `compare_data` contains a stray `return pd.DataFrame()` at line 126, before
  the merge/fill/classify block (lines 128-162).  The stray line is indented
  one level deeper than its neighbours, so the file does not even parse as
  Python; under the charitable reading in which that `return` belongs to the
  function body, every call that survives the both-empty early return hits it
  and yields the empty table.  The embedding `compare_data` below follows that
  reading; the dead merge/classify block is embedded separately as
  `compare_data_merged` so that its logic can still be inspected.

* pandas semantics are embedded at the level the claims need: `pd.to_numeric
  (errors=coerce)` is modelled by giving each raw CSV cell its coercion result
  (`Option Int`); `pd.read_csv` raises `EmptyDataError` only when the input
  has no parsable content at all (a header-only file parses to a table with
  zero data rows and raises nothing); `groupby(..., as_index=False)[...].sum()`
  with the default `sort=True` returns one row per distinct key, keys sorted
  ascending; numeric values are modelled as integers (exact arithmetic).
-/

namespace App

/-- The values of the `Résultat` column assigned by `np.select` in
`compare_data` (src/app.py lines 140-156).  Constructors mirror the source's
string labels: `ok` = "✅ OK", `quantiteDifferente` = "⚠️ Quantité différente",
`manquant` = "❌ Manquant", `enPlus` = "🆕 En plus (Alternative ?)", and
`erreur` = the `np.select` default "Erreur". -/
inductive Status where
  | ok
  | quantiteDifferente
  | manquant
  | enPlus
  | erreur
deriving DecidableEq, Repr

/-- One row of the comparison table built by `compare_data`
(columns `ArticleNumber`, `Quantity_Anfrage`, `Quantity_Angebot`, `Résultat`,
src/app.py line 159). -/
structure ReconRow where
  articleNumber : String
  quantity_Anfrage : Int
  quantity_Angebot : Int
  resultat : Status
deriving DecidableEq, Repr

/-- Sum of the `Quantity` values of the rows whose `ArticleNumber` equals `a`. -/
def sumFor (a : String) (rows : List (String × Int)) : Int :=
  ((rows.filter (fun r => r.1 == a)).map Prod.snd).sum

/-- `df.groupby(ArticleNumber, as_index=False)[Quantity].sum()`
(src/app.py lines 95 and 211), with the pandas default `sort=True`: one row
per distinct `ArticleNumber`, keys sorted ascending, each paired with the sum
of its `Quantity` values. -/
def groupSum (rows : List (String × Int)) : List (String × Int) :=
  (List.insertionSort (· ≤ ·) ((rows.map Prod.fst).dedup)).map
    (fun a => (a, sumFor a rows))

/-- The request normalizer (src/app.py line 211): the raw DB rows, already
numeric, grouped by `ArticleNumber` with `Quantity` summed. -/
def normalizeRequest (rows : List (String × Int)) : List (String × Int) :=
  groupSum rows

/-- One data row of the uploaded offer CSV, restricted to the two columns the
program reads.  `quantity` is the result of
`pd.to_numeric(df[Quantity], errors=coerce)` on the raw cell: `some v` when
the cell parses as a number, `none` when the coercion yields NaN. -/
structure CsvRow where
  article : String
  quantity : Option Int
deriving DecidableEq, Repr

/-- The possible states of the uploaded-file argument of `process_csv`:
no file uploaded (`uploaded_file is None`), a file with no parsable content at
all (`pd.read_csv` raises `EmptyDataError`), a file whose read or processing
raises some other exception, or a successfully parsed table with its header
and data rows. -/
inductive Uploaded where
  | noFile
  | emptyFile
  | readFailure
  | table (header : List String) (rows : List CsvRow)
deriving DecidableEq, Repr

/-- The user-visible signal `process_csv` emits alongside its return value:
`st.info` when no file is uploaded, `st.error` for a missing required column
(line 86), `st.error` for `EmptyDataError` (line 98), `st.error` for any other
exception (line 101), and no signal on the successful path. -/
inductive Signal where
  | noSignal
  | infoNoFile
  | schemaError
  | emptyError
  | otherError
deriving DecidableEq, Repr

/-- What a call to `process_csv` produces: the returned DataFrame (`output`)
and the streamlit signal emitted on the way (`signal`). -/
structure ProcResult where
  output : List (String × Int)
  signal : Signal
deriving DecidableEq, Repr

/-- The surviving offer rows after numeric coercion and
`dropna(subset=[Quantity])` (src/app.py lines 90-92): rows whose quantity
failed to parse are dropped, the rest keep their parsed value. -/
def parsedRows (rows : List CsvRow) : List (String × Int) :=
  rows.filterMap (fun r => r.quantity.map (fun q => (r.article, q)))

/-- The offer normalizer `process_csv` (src/app.py lines 66-102).
Branches, in source order: `uploaded_file is None` → `st.info`, empty frame;
missing `ArticleNumber` or `Quantity` column → `st.error`, empty frame;
otherwise coerce, drop unparseable rows, group and sum; `EmptyDataError` from
`read_csv` → `st.error`, empty frame; any other exception → `st.error`,
empty frame.  Every branch returns a DataFrame; none raises to the caller. -/
def process_csv (u : Uploaded) : ProcResult :=
  match u with
  | .noFile => ⟨[], .infoNoFile⟩
  | .emptyFile => ⟨[], .emptyError⟩
  | .readFailure => ⟨[], .otherError⟩
  | .table header rows =>
    if "ArticleNumber" ∉ header ∨ "Quantity" ∉ header then
      ⟨[], .schemaError⟩
    else
      ⟨groupSum (parsedRows rows), .noSignal⟩

/-- The comparator `compare_data` as written (src/app.py lines 118-126).
If both inputs are empty it returns an empty DataFrame (line 120); otherwise,
after the two column renames, control reaches the stray
`return pd.DataFrame()` at line 126, so the merge/fill/classify block at
lines 128-162 is unreachable and the result is again the empty table. -/
def compare_data (df_anfrage df_angebot : List (String × Int)) : List ReconRow :=
  if df_anfrage.isEmpty && df_angebot.isEmpty then
    []
  else
    []

/-- `m.get(a, 0)`: the quantity recorded for `a`, with the post-merge
`fillna(0)` of src/app.py lines 136-137 — 0 when `a` is absent. -/
def lookup0 (m : List (String × Int)) (a : String) : Int :=
  (List.lookup a m).getD 0

/-- The `np.select` classification of src/app.py lines 140-156, first match
wins, default `erreur`. -/
def classify (qAnfrage qAngebot : Int) : Status :=
  if qAnfrage > 0 ∧ qAngebot > 0 ∧ qAnfrage = qAngebot then .ok
  else if qAnfrage > 0 ∧ qAngebot > 0 ∧ qAnfrage ≠ qAngebot then .quantiteDifferente
  else if qAnfrage > 0 ∧ qAngebot = 0 then .manquant
  else if qAnfrage = 0 ∧ qAngebot > 0 then .enPlus
  else .erreur

/-- The unreachable tail of `compare_data` (src/app.py lines 128-162), kept
for reference: `pd.merge(..., how=outer)` keeps every `ArticleNumber` of
either input and, for `outer`, sorts the join key lexicographically; the two
quantity columns are `fillna(0)`-ed and each row is classified. -/
def compare_data_merged (df_anfrage df_angebot : List (String × Int)) :
    List ReconRow :=
  (List.insertionSort (· ≤ ·)
      ((df_anfrage.map Prod.fst ++ df_angebot.map Prod.fst).dedup)).map
    (fun a =>
      ⟨a, lookup0 df_anfrage a, lookup0 df_angebot a,
        classify (lookup0 df_anfrage a) (lookup0 df_angebot a)⟩)

/-! ### Helper lemmas about `groupSum` -/

theorem lookup_map_pair {f : String → Int} {L : List String} {a : String}
    (ha : a ∈ L) :
    List.lookup a (L.map (fun x => (x, f x))) = some (f a) := by
  induction L with
  | nil => cases ha
  | cons b t ih =>
    by_cases hab : a = b
    · subst hab
      simp [List.lookup_cons]
    · have hb : (a == b) = false := by simp [hab]
      have hat : a ∈ t := by
        rcases List.mem_cons.mp ha with h | h
        · exact absurd h hab
        · exact h
      simp [List.lookup_cons, hb, ih hat]

theorem keys_groupSum (rows : List (String × Int)) :
    (groupSum rows).map Prod.fst =
      List.insertionSort (· ≤ ·) ((rows.map Prod.fst).dedup) := by
  simp [groupSum, Function.comp_def]

theorem mem_keys_groupSum {a : String} (rows : List (String × Int)) :
    a ∈ (groupSum rows).map Prod.fst ↔ a ∈ rows.map Prod.fst := by
  rw [keys_groupSum]
  rw [(List.perm_insertionSort _ _).mem_iff]
  simp [List.mem_dedup]

theorem nodup_keys_groupSum (rows : List (String × Int)) :
    ((groupSum rows).map Prod.fst).Nodup := by
  rw [keys_groupSum]
  exact (List.perm_insertionSort _ _).nodup_iff.mpr (List.nodup_dedup _)

theorem lookup_groupSum {a : String} (rows : List (String × Int))
    (ha : a ∈ rows.map Prod.fst) :
    List.lookup a (groupSum rows) = some (sumFor a rows) := by
  unfold groupSum
  exact lookup_map_pair
    (by rw [(List.perm_insertionSort _ _).mem_iff]; simp [List.mem_dedup, ha])

theorem groupSum_nil : groupSum [] = [] := rfl

theorem process_csv_table_valid {header : List String} (rows : List CsvRow)
    (hA : "ArticleNumber" ∈ header) (hQ : "Quantity" ∈ header) :
    process_csv (.table header rows) =
      ⟨groupSum (parsedRows rows), .noSignal⟩ := by
  simp only [process_csv]
  rw [if_neg]
  push_neg
  exact ⟨hA, hQ⟩

theorem mem_parsedRows_fst {a : String} {rows : List CsvRow}
    (h : a ∈ (parsedRows rows).map Prod.fst) :
    ∃ r ∈ rows, r.article = a ∧ ∃ q : Int, r.quantity = some q := by
  rcases List.mem_map.mp h with ⟨p, hp, hpa⟩
  rcases List.mem_filterMap.mp hp with ⟨r, hr, he⟩
  cases hq : r.quantity with
  | none => rw [hq] at he; cases he
  | some q =>
    rw [hq] at he
    refine ⟨r, hr, ?_, q, hq⟩
    cases he
    exact hpa

/-! ### The claims -/

/-- Claim C1 (failing evaluation): at requested = [(A1, 5)],
offered = [(A1, 5)] the article A1 lies in the union of the two key sets,
yet `compare_data` emits no row at all — the stray line-126 return discards
the whole union, so union completeness fails on the code as written. -/
theorem compare_data_drops_union_row :
    compare_data [("A1", 5)] [("A1", 5)] = [] ∧
      (compare_data [("A1", 5)] [("A1", 5)]).length = 0 := by
  constructor <;> rfl

/-- Claim C2 (failing evaluation): at requested = [(A1, 5)],
offered = [(A1, 3)] the spec demands one row classified QuantityMismatch,
but `compare_data` produces no row bearing any status: its output is empty. -/
theorem compare_data_no_classified_row :
    compare_data [("A1", 5)] [("A1", 3)] = [] ∧
      (compare_data [("A1", 5)] [("A1", 3)]).map ReconRow.resultat = [] := by
  constructor <;> rfl

/-- Claim C3: `compare_data` as written returns the empty table for every
pair of input mappings — both the both-empty early return at line 120 and the
stray, mis-indented `return pd.DataFrame()` at line 126 yield the empty
DataFrame, and the merge/fill/classification block after line 126 is
unreachable. -/
theorem compare_data_always_empty (df_anfrage df_angebot : List (String × Int)) :
    compare_data df_anfrage df_angebot = [] := by
  unfold compare_data
  split <;> rfl

/-- Claim C4: for any parsed offer table whose header lacks `ArticleNumber`
or `Quantity`, `process_csv` emits the schema-error signal (the `st.error` at
line 86) and returns the empty mapping — no partial output and no row
processing. -/
theorem process_csv_schema_failure (header : List String) (rows : List CsvRow)
    (h : "ArticleNumber" ∉ header ∨ "Quantity" ∉ header) :
    process_csv (.table header rows) = ⟨[], .schemaError⟩ := by
  simp only [process_csv]
  rw [if_pos h]

theorem process_csv_schema_failure_witness :
    ("ArticleNumber" ∉ (["ArticleNumber"] : List String) ∨
        "Quantity" ∉ (["ArticleNumber"] : List String)) ∧
      process_csv (.table ["ArticleNumber"] [⟨"A1", some 5⟩]) =
        ⟨[], .schemaError⟩ :=
  ⟨by decide, process_csv_schema_failure _ _ (by decide)⟩

/-- Claim C5 (counterexample): an offer that parses to a valid header with
zero data rows does not produce the empty-input error — `process_csv` runs
its normal path and returns the empty mapping with no signal, and `noSignal`
differs from `emptyError`. -/
theorem process_csv_header_only_no_error :
    process_csv (.table ["ArticleNumber", "Quantity"] []) =
        ⟨[], .noSignal⟩ ∧
      Signal.noSignal ≠ Signal.emptyError := by
  decide

/-- Claim C5 (amended): the empty-input error is signalled exactly for an
upload with no parsable content at all (`pd.read_csv` raising
`EmptyDataError`); an offer with a valid header but zero data rows instead
yields the empty mapping with no error signal. -/
theorem process_csv_empty_input (header : List String)
    (hA : "ArticleNumber" ∈ header) (hQ : "Quantity" ∈ header) :
    process_csv Uploaded.emptyFile = ⟨[], .emptyError⟩ ∧
      process_csv (.table header []) = ⟨[], .noSignal⟩ := by
  refine ⟨rfl, ?_⟩
  rw [process_csv_table_valid [] hA hQ]
  rw [show parsedRows [] = [] from rfl, groupSum_nil]

theorem process_csv_empty_input_witness :
    ("ArticleNumber" ∈ (["ArticleNumber", "Quantity"] : List String)) ∧
      ("Quantity" ∈ (["ArticleNumber", "Quantity"] : List String)) ∧
      (process_csv Uploaded.emptyFile = ⟨[], .emptyError⟩ ∧
        process_csv (.table ["ArticleNumber", "Quantity"] []) =
          ⟨[], .noSignal⟩) :=
  ⟨by decide, by decide, process_csv_empty_input _ (by decide) (by decide)⟩

/-- Claim C6: lenient cleaning — with both required columns present, no error
signal is emitted whatever the rows contain; only the rows whose quantity
coerced successfully are aggregated; and an article all of whose rows were
dropped is entirely absent from the resulting mapping. -/
theorem process_csv_lenient_cleaning (header : List String) (rows : List CsvRow)
    (hA : "ArticleNumber" ∈ header) (hQ : "Quantity" ∈ header) :
    (process_csv (.table header rows)).signal = .noSignal ∧
      (process_csv (.table header rows)).output = groupSum (parsedRows rows) ∧
      ∀ a : String, (∀ r ∈ rows, r.article = a → r.quantity = Option.none) →
        a ∉ ((process_csv (.table header rows)).output.map Prod.fst) := by
  rw [process_csv_table_valid rows hA hQ]
  refine ⟨rfl, rfl, ?_⟩
  intro a hdrop hmem
  rcases mem_parsedRows_fst ((mem_keys_groupSum (parsedRows rows)).mp hmem)
    with ⟨r, hr, hra, q, hq⟩
  rw [hdrop r hr hra] at hq
  cases hq

theorem process_csv_lenient_cleaning_witness :
    ("ArticleNumber" ∈ (["ArticleNumber", "Quantity"] : List String)) ∧
      ("Quantity" ∈ (["ArticleNumber", "Quantity"] : List String)) ∧
      ((process_csv (.table ["ArticleNumber", "Quantity"]
            [⟨"A1", some 5⟩, ⟨"B2", Option.none⟩])).signal = .noSignal ∧
        (process_csv (.table ["ArticleNumber", "Quantity"]
            [⟨"A1", some 5⟩, ⟨"B2", Option.none⟩])).output =
          groupSum (parsedRows [⟨"A1", some 5⟩, ⟨"B2", Option.none⟩]) ∧
        ∀ a : String,
          (∀ r ∈ [(⟨"A1", some 5⟩ : CsvRow), ⟨"B2", Option.none⟩],
              r.article = a → r.quantity = Option.none) →
          a ∉ ((process_csv (.table ["ArticleNumber", "Quantity"]
              [⟨"A1", some 5⟩, ⟨"B2", Option.none⟩])).output.map Prod.fst)) :=
  ⟨by decide, by decide,
    process_csv_lenient_cleaning _ _ (by decide) (by decide)⟩

/-- Claim C7: canonical-mapping invariant of both normalizers — in the
request normalizer each article appears at most once and carries the sum of
the quantities of all raw rows bearing it, with empty input giving the empty
mapping; the offer normalizer's output satisfies the same invariant over its
surviving (numerically coerced) rows. -/
theorem canonicalMapping_invariant (rows : List (String × Int))
    (header : List String) (csvRows : List CsvRow)
    (hA : "ArticleNumber" ∈ header) (hQ : "Quantity" ∈ header) :
    ((normalizeRequest rows).map Prod.fst).Nodup ∧
      (∀ a ∈ rows.map Prod.fst,
        List.lookup a (normalizeRequest rows) = some (sumFor a rows)) ∧
      normalizeRequest [] = [] ∧
      ((process_csv (.table header csvRows)).output.map Prod.fst).Nodup ∧
      (∀ a ∈ (parsedRows csvRows).map Prod.fst,
        List.lookup a ((process_csv (.table header csvRows)).output) =
          some (sumFor a (parsedRows csvRows))) := by
  rw [process_csv_table_valid csvRows hA hQ]
  exact ⟨nodup_keys_groupSum rows,
    fun a ha => lookup_groupSum rows ha,
    groupSum_nil,
    nodup_keys_groupSum (parsedRows csvRows),
    fun a ha => lookup_groupSum (parsedRows csvRows) ha⟩

theorem canonicalMapping_invariant_witness :
    ("ArticleNumber" ∈ (["ArticleNumber", "Quantity"] : List String)) ∧
      ("Quantity" ∈ (["ArticleNumber", "Quantity"] : List String)) ∧
      (((normalizeRequest [("B2", 3), ("A1", 2), ("A1", 4)]).map
          Prod.fst).Nodup ∧
        (∀ a ∈ [("B2", (3 : Int)), ("A1", 2), ("A1", 4)].map Prod.fst,
          List.lookup a (normalizeRequest [("B2", 3), ("A1", 2), ("A1", 4)]) =
            some (sumFor a [("B2", 3), ("A1", 2), ("A1", 4)])) ∧
        normalizeRequest [] = [] ∧
        ((process_csv (.table ["ArticleNumber", "Quantity"]
            [⟨"A1", some 7⟩])).output.map Prod.fst).Nodup ∧
        (∀ a ∈ (parsedRows [⟨"A1", some 7⟩]).map Prod.fst,
          List.lookup a ((process_csv (.table ["ArticleNumber", "Quantity"]
              [⟨"A1", some 7⟩])).output) =
            some (sumFor a (parsedRows [⟨"A1", some 7⟩])))) :=
  ⟨by decide, by decide,
    canonicalMapping_invariant _ _ _ (by decide) (by decide)⟩

/-- Claim C8 (failing evaluation): at requested = [(A1, 5), (B2, 1)],
offered = [(C3, 2)] the spec demands rows A1, B2, C3 in that order, but
`compare_data` emits no row at all — there is no row ordering because the
stray line-126 return empties the output. -/
theorem compare_data_no_ordered_rows :
    compare_data [("A1", 5), ("B2", 1)] [("C3", 2)] = [] ∧
      (compare_data [("A1", 5), ("B2", 1)] [("C3", 2)]).map
        ReconRow.articleNumber = [] := by
  constructor <;> rfl

/-- Claim C9: no output row of `compare_data` is ever assigned the `erreur`
(UnclassifiedError) status, for any pair of input mappings — the count of
`erreur` rows in the output is always zero.  (This holds degenerately: the
classification block is unreachable, so the output never contains any row.) -/
theorem compare_data_never_erreur (df_anfrage df_angebot : List (String × Int)) :
    (compare_data df_anfrage df_angebot).countP
      (fun r => decide (r.resultat = Status.erreur)) = 0 := by
  unfold compare_data
  split <;> rfl

/-- Claim C10: `process_csv` never raises to its caller — the no-file, fully
empty file, read-failure and missing-column branches all return the empty
mapping, exactly the value returned for a schema-valid offer whose only row
is dropped for an unparseable quantity, so the caller cannot distinguish a
schema or input failure from a valid offer aggregating to nothing. -/
theorem process_csv_total_empty_on_failure (header : List String)
    (rows : List CsvRow)
    (h : "ArticleNumber" ∉ header ∨ "Quantity" ∉ header) :
    (process_csv .noFile).output = [] ∧
      (process_csv .emptyFile).output = [] ∧
      (process_csv .readFailure).output = [] ∧
      (process_csv (.table header rows)).output = [] ∧
      (process_csv (.table ["ArticleNumber", "Quantity"]
          [⟨"A1", Option.none⟩])).signal = .noSignal ∧
      (process_csv (.table ["ArticleNumber", "Quantity"]
          [⟨"A1", Option.none⟩])).output = [] := by
  refine ⟨rfl, rfl, rfl, ?_, by decide, by decide⟩
  simp only [process_csv]
  rw [if_pos h]

theorem process_csv_total_empty_on_failure_witness :
    ("ArticleNumber" ∉ (["Artikel", "Quantity"] : List String) ∨
        "Quantity" ∉ (["Artikel", "Quantity"] : List String)) ∧
      ((process_csv .noFile).output = [] ∧
        (process_csv .emptyFile).output = [] ∧
        (process_csv .readFailure).output = [] ∧
        (process_csv (.table ["Artikel", "Quantity"]
            [⟨"A1", some 5⟩])).output = [] ∧
        (process_csv (.table ["ArticleNumber", "Quantity"]
            [⟨"A1", Option.none⟩])).signal = .noSignal ∧
        (process_csv (.table ["ArticleNumber", "Quantity"]
            [⟨"A1", Option.none⟩])).output = []) :=
  ⟨by decide, process_csv_total_empty_on_failure _ _ (by decide)⟩

end App
